import Mathlib

/-!
Verification of the orchestration core of the autocsv-profiler-suite
repository: delimiter detection, bounded ingestion, and the sequential
engine pipeline.  All definitions are shallow embeddings of the Python
source (`autocsv_profiler/ui/interactive.py`,
`autocsv_profiler/core/validation.py`, `.Release/autocsv_profiler/base.py`).
External effects (filesystem, process memory, subprocess exit codes,
`csv.Sniffer`, the pandas fallback) are passed in as explicit oracle
parameters, so every definition is executable on concrete inputs.
-/

set_option maxHeartbeats 1600000

/-! ## Python-string helpers

The detection code operates on decoded text.  We embed Python strings as
`List Char` and translate the string operations used by the source
(`str.split`, `str.strip`, `str.count`, substring membership) directly. -/

/-- Whitespace for Python `str.strip` (space, tab, newline, CR, VT, FF). -/
def pyIsSpace (c : Char) : Bool :=
  c = ' ' || c = '\t' || c = '\n' || c = '\r' || c = '\x0b' || c = '\x0c'

/-- Python `str.strip()` on a character list. -/
def pyStrip (l : List Char) : List Char :=
  ((l.dropWhile pyIsSpace).reverse.dropWhile pyIsSpace).reverse

/-- Python `str.split("\n")`: split on every newline, keeping empty pieces. -/
def splitOnNl : List Char → List (List Char)
  | [] => [[]]
  | c :: rest =>
    let r := splitOnNl rest
    if c = '\n' then [] :: r
    else
      match r with
      | [] => [[c]]
      | h :: t => (c :: h) :: t

/-- Python substring test `pat in s`, on character lists. -/
def listIsInfix (pat : List Char) : List Char → Bool
  | [] => pat.isEmpty
  | c :: rest => pat.isPrefixOf (c :: rest) || listIsInfix pat rest

/-- Model of Python `str.isprintable` on the ASCII range: the printable
ASCII characters are exactly 0x20..0x7e.  (All inputs in this development
are ASCII.) -/
def pyIsPrintable (c : Char) : Bool :=
  0x20 ≤ c.toNat && c.toNat ≤ 0x7e

/-- Characters skipped as delimiter candidates:
`char.isalnum() or char in "\"'`\n\r"` in the source. -/
def isSkippedChar (c : Char) : Bool :=
  c.isAlphanum || c = '"' || c = '\'' || c = '`' || c = '\n' || c = '\r'

/-- Helper for `firstOccs`: drop elements already seen. -/
def firstOccsAux {α : Type} [DecidableEq α] (seen : List α) : List α → List α
  | [] => []
  | x :: xs => if x ∈ seen then firstOccsAux seen xs else x :: firstOccsAux (x :: seen) xs

/-- First occurrences of each element, in order of first appearance
(the key order of a Python `dict`/`Counter` built by insertion). -/
def firstOccs {α : Type} [DecidableEq α] (l : List α) : List α :=
  firstOccsAux [] l

/-- `Counter(l).most_common(1)[0][0]`: the element of `l` with the largest
multiplicity; ties are broken in favour of the earliest first occurrence
(Python's `most_common` sorts stably by count over insertion order). -/
def mostCommon (l : List Nat) : Nat :=
  match firstOccs l with
  | [] => 0
  | x :: xs => xs.foldl (fun best v => if l.count v > l.count best then v else best) x

/-! ## Structural delimiter detection
(`CleanInteractiveMethods._detect_delimiter_structural`,
`autocsv_profiler/ui/interactive.py` lines 203-339).

The 16 KB decoded sample is the `sample` parameter.  The `csv.Sniffer`
cross-check and the pandas last-resort fallback call external libraries,
so their outcomes are oracle parameters (`sniffConfirms`,
`pandasFallback`). -/

/-- The non-empty (after `strip`) lines of the sample:
`[line for line in sample.split("\n") if line.strip()]`. -/
def linesOf (sample : List Char) : List (List Char) :=
  (splitOnNl sample).filter (fun l => !(pyStrip l).isEmpty)

/-- Delimiter candidates: every character of the sample that is not
alphanumeric / quote / line terminator and is printable (or a tab).
Listed in order of first appearance (Python iterates a `set`, whose
order is unspecified; the scoring below is shown maximal for every
candidate order). -/
def candidateChars (sample : List Char) : List Char :=
  firstOccs (sample.filter (fun c => !isSkippedChar c && (pyIsPrintable c || c = '\t')))

/-- Per-candidate occurrence counts over the first 20 lines, keeping only
lines with at least one occurrence (`column_counts` in the source; its
length is `valid_lines`). -/
def columnCounts (d : Char) (lines : List (List Char)) : List Nat :=
  (((lines.take 20).filter (fun l => !(pyStrip l).isEmpty)).map
    (fun l => l.count d)).filter (fun n => 0 < n)

/-- `consistency_ratio`: lines matching the most frequent count, over
lines with at least one occurrence. -/
def consistencyRatio (d : Char) (lines : List (List Char)) : ℚ :=
  let counts := columnCounts d lines
  (counts.count (mostCommon counts) : ℚ) / (counts.length : ℚ)

/-- `coverage`: lines with at least one occurrence over lines sampled. -/
def coverageOf (d : Char) (lines : List (List Char)) : ℚ :=
  ((columnCounts d lines).length : ℚ) / ((min lines.length 20 : ℕ) : ℚ)

/-- The canonical-delimiter bonus set `",;\t|"`. -/
def canonicalDelims : List Char := [',', ';', '\t', '|']

/-- Score of one candidate, or `none` when the candidate is skipped
(`valid_lines < 2 or not column_counts`, or the consistency/frequency
guard fails).  Mirrors the body of the candidate loop. -/
def candScore (d : Char) (lines : List (List Char)) : Option ℚ :=
  let counts := columnCounts d lines
  if counts.length < 2 then none
  else
    let frequency := mostCommon counts
    let ratio := consistencyRatio d lines
    if (0.8 : ℚ) ≤ ratio ∧ 1 ≤ frequency then
      some (ratio * (frequency : ℚ) * coverageOf d lines *
        (if d ∈ canonicalDelims then (1.2 : ℚ) else 1))
    else none

/-- The candidate loop: running best delimiter and best score, strict
improvement only (`if score > best_score`). -/
def scanCandidates (lines : List (List Char)) :
    List Char → Option Char × ℚ → Option Char × ℚ
  | [], best => best
  | d :: rest, (bd, bs) =>
    match candScore d lines with
    | none => scanCandidates lines rest (bd, bs)
    | some s =>
      if bs < s then scanCandidates lines rest (some d, s)
      else scanCandidates lines rest (bd, bs)

/-- The full detection loop started from `best_delimiter = None`,
`best_score = 0.0`. -/
def detectBest (cands : List Char) (lines : List (List Char)) : Option Char × ℚ :=
  scanCandidates lines cands (none, (0 : ℚ))

/-- `_detect_delimiter_structural`: empty-sample and `< 2` line guards,
candidate scan, Sniffer cross-check, confidence threshold `2.0`, and the
pandas fallback (oracle). -/
def detectDelimiterStructural (sample : List Char) (sniffConfirms : Bool)
    (pandasFallback : Option Char) : Option Char :=
  if sample.isEmpty then none
  else
    let lines := linesOf sample
    if lines.length < 2 then none
    else
      match detectBest (candidateChars sample) lines with
      | (some d, s) =>
        if sniffConfirms then some d
        else if (2 : ℚ) < s then some d
        else pandasFallback
      | (none, _) => pandasFallback

/-! ## Delimiter validation

`CleanInteractiveMethods._is_valid_delimiter` (interactive.py lines
341-347) and the escape-sequence processing of the manual-entry loop
(lines 177-201); `ParameterValidator.validate_delimiter`
(core/validation.py lines 229-247). -/

/-- `_is_valid_delimiter`: non-empty and at most 3 characters. -/
def isValidDelimiter (d : String) : Bool :=
  if d = "" then false
  else if 3 < d.length then false
  else true

/-- Fuel-indexed helper for `replaceSub` (the fuel is the input length,
so it never runs out). -/
def replaceSubAux (pat rep : List Char) : Nat → List Char → List Char
  | 0, s => s
  | _ + 1, [] => []
  | fuel + 1, c :: rest =>
    if !pat.isEmpty && pat.isPrefixOf (c :: rest) then
      rep ++ replaceSubAux pat rep fuel ((c :: rest).drop pat.length)
    else c :: replaceSubAux pat rep fuel rest

/-- Python `str.replace(pat, rep)`: replace every non-overlapping
occurrence, scanning left to right. -/
def replaceSub (pat rep s : List Char) : List Char :=
  replaceSubAux pat rep s.length s

/-- Escape processing of manual delimiter entry:
`delimiter.replace("\\t", "\t").replace("\\n", "\n")`. -/
def processEscapes (s : List Char) : List Char :=
  replaceSub ("\\n").data ("\n").data (replaceSub ("\\t").data ("\t").data s)

/-- The characters rejected by `validate_delimiter`
(`dangerous_chars = ["\n", "\r", "\x00"]`). -/
def isDangerousChar (c : Char) : Bool :=
  c = '\n' || c = '\r' || c = '\x00'

/-- `ParameterValidator.validate_delimiter`: empty, overlong, or
dangerous-character delimiters are rejected with `ValueError`; otherwise
the delimiter is returned unchanged. -/
def validateDelimiter (d : String) : Except String String :=
  if d = "" then .error "Delimiter cannot be empty"
  else if 5 < d.length then .error "Delimiter is too long (max 5 characters)"
  else if d.data.any isDangerousChar then .error "Delimiter contains dangerous characters"
  else .ok d

/-! ## Validation-layer delimiter detection
(`CrossEnvironmentValidator._detect_delimiter`, core/validation.py lines
118-165).

`sampleLines` holds the results of the twenty `readline().strip()`
calls.  Candidate delimiters are single characters, as in the default
configuration `[",", ";", "\t", "|", ":", " "]`.  Both internal
`DelimiterDetectionError` raises happen inside the `try` block, so the
`except` clause re-wraps them with the prefix
`"Delimiter detection failed: "`. -/

/-- Score of one candidate in `_detect_delimiter`: present in the first
line, consistent over lines 1..min(5,n)-1, and yielding between 2 and 50
columns; the score is `count + 10`. -/
def validationScore (lines : List (List Char)) (d : Char) : Option Nat :=
  match lines with
  | [] => none
  | first :: rest =>
    if first.count d = 0 then none
    else
      let count := first.count d
      let consistent := ((rest.take (min 5 lines.length - 1)).all
        (fun l => l.count d = count))
      if consistent ∧ 2 ≤ count + 1 ∧ count + 1 ≤ 50 then some (count + 10)
      else none

/-- Python `max(keys, key=score)`: the first key attaining the maximal
score, in iteration (insertion) order. -/
def maxByScore (scored : List (Char × Nat)) : Option Char :=
  match scored with
  | [] => none
  | (c, s) :: rest =>
    some (rest.foldl (fun (best : Char × Nat) kv =>
      if best.2 < kv.2 then kv else best) (c, s)).1

/-- `_detect_delimiter` on the stripped sample lines. -/
def validationDetectDelimiter (sampleLines : List (List Char))
    (delims : List Char) : Except String (List Char) :=
  let lines := sampleLines.filter (fun l => !l.isEmpty)
  if lines.isEmpty then
    .error ("Delimiter detection failed: " ++ "CSV file appears to be empty")
  else
    let scored := delims.filterMap (fun d =>
      (validationScore lines d).map (fun s => (d, s)))
    match maxByScore scored with
    | some d => .ok [d]
    | none => .error ("Delimiter detection failed: " ++ "No consistent delimiter pattern found")

/-! ## Bounded ingestion (`BaseProfiler._load_data`,
`.Release/autocsv_profiler/base.py` lines 93-160).

The pandas table is embedded as a header plus rows of fields.  Process
memory (`psutil.Process().memory_info().rss`, in GB) is an oracle
function of the iteration index, sampled once per chunk before the chunk
is appended.  Every error raised inside the `try` block other than
`FileNotFoundError`/`ParserError` is re-wrapped by the final
`except Exception` clause as
`FileProcessingError("Unexpected error loading data: ...")`. -/

/-- A loaded table: column header plus data rows. -/
structure DataFrame where
  header : List (List Char)
  rows : List (List (List Char))
deriving DecidableEq, Repr

instance {ε α : Type} [DecidableEq ε] [DecidableEq α] : DecidableEq (Except ε α)
  | .error a, .error b =>
    if h : a = b then isTrue (by rw [h]) else isFalse (by intro he; cases he; exact h rfl)
  | .error _, .ok _ => isFalse (by intro h; cases h)
  | .ok _, .error _ => isFalse (by intro h; cases h)
  | .ok a, .ok b =>
    if h : a = b then isTrue (by rw [h]) else isFalse (by intro he; cases he; exact h rfl)

/-- Split a line into fields at the separator. -/
def splitOnSep (sep : Char) : List Char → List (List Char)
  | [] => [[]]
  | c :: rest =>
    let r := splitOnSep sep rest
    if c = sep then [] :: r
    else
      match r with
      | [] => [[c]]
      | h :: t => (c :: h) :: t

/-- Simple model of `pd.read_csv(path, sep=delimiter)` for well-formed
small files: first non-blank line is the header, remaining non-blank
lines are data rows (pandas skips blank lines by default). -/
def parseCsv (content : List Char) (sep : Char) : DataFrame :=
  match (splitOnNl content).filter (fun l => !l.isEmpty) with
  | [] => ⟨[], []⟩
  | h :: t => ⟨splitOnSep sep h, t.map (splitOnSep sep)⟩

/-- `pd.concat(chunks, ignore_index=True)` on a non-empty chunk list:
header of the first chunk, rows concatenated in order. -/
def concatFrames : List DataFrame → DataFrame
  | [] => ⟨[], []⟩
  | d :: ds => ⟨d.header, (d :: ds).flatMap (fun c => c.rows)⟩

/-- The `MemoryError` message raised by the chunk loop. -/
def memErrMsg (limitGb : ℚ) : String :=
  "Memory usage exceeded " ++ toString limitGb ++ "GB"

/-- The chunk loop of `_load_data`: per chunk, when psutil is available,
sample process memory and abort on excess; otherwise append the chunk. -/
def chunkLoop (hasPsutil : Bool) (limitGb : ℚ) (mem : Nat → ℚ) :
    Nat → List DataFrame → List DataFrame → Except String (List DataFrame)
  | _, [], acc => .ok acc
  | i, c :: rest, acc =>
    if hasPsutil ∧ limitGb < mem i then .error (memErrMsg limitGb)
    else chunkLoop hasPsutil limitGb mem (i + 1) rest (acc ++ [c])

/-- `BaseProfiler._load_data`.  `fileExists`, `fileSize`, the decoded
`content` (small-file path), the chunk sequence the pandas iterator
would yield (large-file path), and the memory samples are explicit
inputs.  `smallThreshold` is the small-file byte threshold
(50 MB by default). -/
def loadData (fileExists : Bool) (path : String) (fileSize smallThreshold : Nat)
    (content : List Char) (sep : Char) (chunks : List DataFrame)
    (mem : Nat → ℚ) (hasPsutil : Bool) (limitGb : ℚ) :
    Except String DataFrame :=
  if ¬fileExists then
    .error ("Unexpected error loading data: " ++ "File not found: " ++ path)
  else if fileSize < smallThreshold then
    .ok (parseCsv content sep)
  else
    match chunkLoop hasPsutil limitGb mem 0 chunks [] with
    | .error m => .error ("Unexpected error loading data: " ++ m)
    | .ok [] => .error ("Unexpected error loading data: " ++ "No objects to concatenate")
    | .ok cs => .ok (concatFrames cs)

/-! ## Engine orchestration (`CleanInteractiveMethods.run_engines`,
`autocsv_profiler/ui/interactive.py` lines 450-605).

Per engine the loop computes the effective input path (substituting
`modified_dataset.csv` when it exists and the engine is not the
interactive main engine), builds the `conda run` command, dispatches the
child process, and appends one result dict.  The child-process world is
an oracle: `fs i name` says whether file `name` exists when engine `i`
is about to run, and `outcome i` is what happens at step `i`
(an exit code, a caught exception, or a `KeyboardInterrupt` during the
wait, which breaks the loop). -/

/-- One entry of the configured engine list (an element of
`config["scripts"]`). -/
structure Engine where
  name : String
  argsType : String
  environment : String
deriving DecidableEq, Repr

/-- What the world does when the loop reaches one engine. -/
inductive EngineOutcome where
  /-- `subprocess.run` returned with this exit code. -/
  | exited (code : Int)
  /-- `KeyboardInterrupt` while waiting on the child process. -/
  | interruptedWait
  /-- A caught exception (`subprocess.CalledProcessError` or the generic
  `except Exception` branch, e.g. an unresolvable environment); the loop
  records the failure and continues. -/
  | raised (msg : String)
deriving DecidableEq, Repr

/-- One result dict appended to `results`. -/
structure ExecutionResult where
  engine : String
  success : Bool
  output : Option String
  error : Option String
deriving DecidableEq, Repr

instance : Inhabited ExecutionResult := ⟨⟨"", false, none, none⟩⟩

/-- A dispatched child-process invocation. -/
structure Invocation where
  engine : String
  inputPath : String
  cmd : List String
deriving DecidableEq, Repr

instance : Inhabited Invocation := ⟨⟨"", "", []⟩⟩

/-- The handoff artifact's path: `output_dir / "modified_dataset.csv"`. -/
def modifiedCsvPath (outputDir : String) : String :=
  outputDir ++ "/modified_dataset.csv"

/-- `interactive_engine = "main/analyzer.py" in engine_name`. -/
def isInteractiveEngine (e : Engine) : Bool :=
  listIsInfix ("main/analyzer.py").data e.name.data

/-- The effective input path of one engine: the handoff artifact when it
exists and the engine is not the interactive main engine, the original
source path otherwise. -/
def effectiveInput (artifactExists : Bool) (e : Engine)
    (csvPath outputDir : String) : String :=
  if artifactExists ∧ ¬isInteractiveEngine e then modifiedCsvPath outputDir
  else csvPath

/-- Positional arguments per the engine's argument convention. -/
def cmdArgs (e : Engine) (input delim outputDir : String) : List String :=
  if e.argsType = "csv_delimiter_output" then [input, delim, outputDir]
  else [input, outputDir]

/-- The full `conda run` command line. -/
def buildCmd (envName scriptPath : String) (args : List String) : List String :=
  ["conda", "run", "--no-capture-output", "-n", envName, "python", scriptPath] ++ args

/-- The invocation dispatched for one engine. -/
def mkInvocation (envName : String → String) (projectRoot : String) (e : Engine)
    (input delim outputDir : String) : Invocation :=
  { engine := e.name
    inputPath := input
    cmd := buildCmd (envName e.environment)
      (projectRoot ++ "/autocsv_profiler/" ++ e.name)
      (cmdArgs e input delim outputDir) }

/-- Result appended on exit code 0. -/
def okResult (e : Engine) : ExecutionResult :=
  { engine := e.name, success := true
    output := some (e.name ++ " completed successfully"), error := none }

/-- Result appended on a nonzero exit code. -/
def exitFailResult (e : Engine) (code : Int) : ExecutionResult :=
  { engine := e.name, success := false, output := none
    error := some ("Failed with exit code " ++ toString code) }

/-- Result appended when a `KeyboardInterrupt` breaks the loop. -/
def interruptResult (e : Engine) : ExecutionResult :=
  { engine := e.name, success := false, output := none
    error := some "Interrupted by user" }

/-- Result appended by the exception branches that let the loop continue. -/
def raisedResult (e : Engine) (msg : String) : ExecutionResult :=
  { engine := e.name, success := false, output := none, error := some msg }

/-- The engine loop of `run_engines`, from step index `i`.  Returns the
`results` list and the invocations actually dispatched, both in loop
order.  `KeyboardInterrupt` appends its failure result and breaks; every
other outcome lets the loop advance to the next engine. -/
def runEnginesFrom (envName : String → String) (projectRoot : String)
    (fs : Nat → String → Bool) (outcome : Nat → EngineOutcome)
    (csvPath delim outputDir : String) :
    Nat → List Engine → List ExecutionResult × List Invocation
  | _, [] => ([], [])
  | i, e :: rest =>
    let input := effectiveInput (fs i (modifiedCsvPath outputDir)) e csvPath outputDir
    let inv := mkInvocation envName projectRoot e input delim outputDir
    match outcome i with
    | .exited c =>
      let p := runEnginesFrom envName projectRoot fs outcome csvPath delim outputDir
        (i + 1) rest
      ((if c = 0 then okResult e else exitFailResult e c) :: p.1, inv :: p.2)
    | .raised msg =>
      let p := runEnginesFrom envName projectRoot fs outcome csvPath delim outputDir
        (i + 1) rest
      (raisedResult e msg :: p.1, p.2)
    | .interruptedWait => ([interruptResult e], [inv])

/-- `run_engines` over the selected engine list. -/
def runEngines (envName : String → String) (projectRoot : String)
    (fs : Nat → String → Bool) (outcome : Nat → EngineOutcome)
    (csvPath delim outputDir : String) (engines : List Engine) :
    List ExecutionResult × List Invocation :=
  runEnginesFrom envName projectRoot fs outcome csvPath delim outputDir 0 engines

/-! ## Concrete fixtures -/

/-- The concrete sample of the spec's scenario:
`"id,name,age\n1,Alice,25\n2,Bob,30\n"`. -/
def sampleScenario : List Char := ("id,name,age\n1,Alice,25\n2,Bob,30\n").data

/-- A non-interactive engine fixture (YData profiling). -/
def engYdata : Engine :=
  ⟨"engines/profiling/ydata_report.py", "csv_delimiter_output", "profiling"⟩

/-- A second non-interactive engine fixture (SweetViz). -/
def engSweetviz : Engine :=
  ⟨"engines/profiling/sweetviz_report.py", "csv_delimiter_output", "profiling"⟩

/-- The interactive main engine fixture. -/
def engMain : Engine :=
  ⟨"engines/main/analyzer.py", "csv_delimiter_output", "main"⟩

/-- An empty chunk fixture for the loader. -/
def chunkFix : DataFrame := ⟨[[]], [[[]]]⟩

/-- Environment-name lookup fixture. -/
def envFix : String → String := fun _ => "csv-profiler-main"

/-- Filesystem fixture: no file exists at any step. -/
def fsNone : Nat → String → Bool := fun _ _ => false

/-- Filesystem fixture: every file exists at every step. -/
def fsAll : Nat → String → Bool := fun _ _ => true

/-- Outcome fixture: every engine exits 0 except engine 1, which exits 2. -/
def outcomeOneFail : Nat → EngineOutcome :=
  fun i => if i = 1 then .exited 2 else .exited 0

/-- Outcome fixture: every engine exits 0. -/
def outcomeAllOk : Nat → EngineOutcome := fun _ => .exited 0

/-- Outcome fixture: engine 1 is interrupted, every other engine exits 0. -/
def outcomeInterruptAt1 : Nat → EngineOutcome :=
  fun i => if i = 1 then .interruptedWait else .exited 0

/-! ## Lemmas about the chunk loop -/

/-- If some memory sample within the chunk sequence exceeds the ceiling,
the chunk loop aborts with the memory error. -/
theorem chunkLoop_memory_abort (limitGb : ℚ) (mem : Nat → ℚ) :
    ∀ (l : List DataFrame) (s : Nat) (acc : List DataFrame),
    (∃ j, j < l.length ∧ limitGb < mem (s + j)) →
    chunkLoop true limitGb mem s l acc = .error (memErrMsg limitGb) := by
  intro l
  induction l with
  | nil =>
    intro s acc h
    obtain ⟨j, hj, _⟩ := h
    simp at hj
  | cons c rest ih =>
    intro s acc h
    by_cases hm : limitGb < mem s
    · simp [chunkLoop, hm]
    · obtain ⟨j, hj, hgt⟩ := h
      match j with
      | 0 => simp at hgt; exact absurd hgt hm
      | j' + 1 =>
        have : chunkLoop true limitGb mem s (c :: rest) acc =
            chunkLoop true limitGb mem (s + 1) rest (acc ++ [c]) := by
          simp [chunkLoop, hm]
        rw [this]
        apply ih
        refine ⟨j', ?_, ?_⟩
        · simpa using Nat.lt_of_succ_lt_succ hj
        · have : s + 1 + j' = s + (j' + 1) := by omega
          rw [this]
          exact hgt

/-- Without psutil the chunk loop appends every chunk and never fails. -/
theorem chunkLoop_no_psutil (limitGb : ℚ) (mem : Nat → ℚ) :
    ∀ (l : List DataFrame) (s : Nat) (acc : List DataFrame),
    chunkLoop false limitGb mem s l acc = .ok (acc ++ l) := by
  intro l
  induction l with
  | nil => intro s acc; simp [chunkLoop]
  | cons c rest ih =>
    intro s acc
    have : chunkLoop false limitGb mem s (c :: rest) acc =
        chunkLoop false limitGb mem (s + 1) rest (acc ++ [c]) := by
      simp [chunkLoop]
    rw [this, ih]
    simp

/-- C3: during a chunked (large-file) load a memory sample is taken for
every batch, and if any sample exceeds the ceiling the entire load fails
with the `IngestionError` (`FileProcessingError`) wrapping the memory
message — no partial table is returned. -/
theorem chunked_load_memory_ceiling_aborts
    (path : String) (fileSize smallThreshold : Nat) (content : List Char)
    (sep : Char) (chunks : List DataFrame) (mem : Nat → ℚ) (limitGb : ℚ)
    (hsize : ¬fileSize < smallThreshold)
    (i : Nat) (hi : i < chunks.length) (hmem : limitGb < mem i) :
    loadData true path fileSize smallThreshold content sep chunks mem true limitGb =
      .error ("Unexpected error loading data: " ++ memErrMsg limitGb) := by
  have habort := chunkLoop_memory_abort limitGb mem chunks 0 []
    ⟨i, hi, by simpa using hmem⟩
  simp [loadData, hsize, habort]

/-- Witness for C3: a two-chunk load whose first memory sample is 2 GB
against a 1 GB ceiling aborts with the wrapped memory error. -/
theorem chunked_load_memory_ceiling_aborts_witness :
    loadData true "data.csv" (100 * 1024 * 1024) (50 * 1024 * 1024) [] ','
      [chunkFix, chunkFix] (fun _ => 2) true 1 =
      .error ("Unexpected error loading data: " ++ memErrMsg 1) :=
  chunked_load_memory_ceiling_aborts "data.csv" (100 * 1024 * 1024)
    (50 * 1024 * 1024) [] ',' [chunkFix, chunkFix] (fun _ => 2) 1
    (by decide) 0 (by decide) (by with_unfolding_all decide)

/-- C9 counterexample: a chunked load that reads zero batches fails with
the wrapped concatenation error `"Unexpected error loading data: No
objects to concatenate"`, whose text does not contain the phrase
`"no data loaded"`. -/
theorem zero_batches_message_counterexample :
    loadData true "data.csv" (100 * 1024 * 1024) (50 * 1024 * 1024) [] ',' []
      (fun _ => 0) true 1 =
      .error "Unexpected error loading data: No objects to concatenate" ∧
    listIsInfix ("no data loaded").data
      ("Unexpected error loading data: No objects to concatenate").data = false := by
  constructor
  · with_unfolding_all decide
  · decide

/-- C9 amended: a chunked load that reads zero batches raises an
`IngestionError` (`FileProcessingError`) rather than returning an empty
table, but its message is the wrapped concatenation failure, not a
"no data loaded" message. -/
theorem zero_batches_raises
    (path : String) (fileSize smallThreshold : Nat) (content : List Char)
    (sep : Char) (mem : Nat → ℚ) (hasPsutil : Bool) (limitGb : ℚ)
    (hsize : ¬fileSize < smallThreshold) :
    loadData true path fileSize smallThreshold content sep [] mem hasPsutil limitGb =
      .error ("Unexpected error loading data: " ++ "No objects to concatenate") := by
  simp [loadData, hsize, chunkLoop]

/-- Witness for C9 (amended) at concrete inputs. -/
theorem zero_batches_raises_witness :
    loadData true "data.csv" (100 * 1024 * 1024) (50 * 1024 * 1024) [] ',' []
      (fun _ => 0) false 1 =
      .error ("Unexpected error loading data: " ++ "No objects to concatenate") :=
  zero_batches_raises "data.csv" (100 * 1024 * 1024) (50 * 1024 * 1024) [] ','
    (fun _ => 0) false 1 (by decide)

/-- C10: when psutil is unavailable the memory guard never fires: every
chunk is appended unconditionally and the chunked load returns the
concatenation of all chunks (so it never raises the memory-limit error,
whatever the memory samples are). -/
theorem no_psutil_no_memory_check
    (path : String) (fileSize smallThreshold : Nat) (content : List Char)
    (sep : Char) (chunks : List DataFrame) (mem : Nat → ℚ) (limitGb : ℚ)
    (hsize : ¬fileSize < smallThreshold) (hne : chunks ≠ []) :
    chunkLoop false limitGb mem 0 chunks [] = .ok chunks ∧
    loadData true path fileSize smallThreshold content sep chunks mem false limitGb =
      .ok (concatFrames chunks) ∧
    loadData true path fileSize smallThreshold content sep chunks mem false limitGb ≠
      .error ("Unexpected error loading data: " ++ memErrMsg limitGb) := by
  cases chunks with
  | nil => exact absurd rfl hne
  | cons c cs =>
    have hloop : chunkLoop false limitGb mem 0 (c :: cs) [] = .ok (c :: cs) := by
      simpa using chunkLoop_no_psutil limitGb mem (c :: cs) 0 []
    refine ⟨hloop, ?_, ?_⟩
    · simp [loadData, hsize, hloop]
    · simp [loadData, hsize, hloop]

/-- Witness for C10: a one-chunk load with an enormous memory sample
still succeeds when psutil is absent. -/
theorem no_psutil_no_memory_check_witness :
    chunkLoop false 1 (fun _ => 1000) 0 [chunkFix] [] = .ok [chunkFix] ∧
    loadData true "data.csv" (100 * 1024 * 1024) (50 * 1024 * 1024) [] ','
      [chunkFix] (fun _ => 1000) false 1 = .ok (concatFrames [chunkFix]) ∧
    loadData true "data.csv" (100 * 1024 * 1024) (50 * 1024 * 1024) [] ','
      [chunkFix] (fun _ => 1000) false 1 ≠
      .error ("Unexpected error loading data: " ++ memErrMsg 1) :=
  no_psutil_no_memory_check "data.csv" (100 * 1024 * 1024) (50 * 1024 * 1024)
    [] ',' [chunkFix] (fun _ => 1000) 1 (by decide) (by decide)

/-- C6: structural delimiter detection on a sample with fewer than 2
non-empty lines fails (returns no delimiter), and the validation-layer
detector on an empty file raises a `DelimiterDetectionError` whose
message says the file appears to be empty. -/
theorem detection_fails_without_two_lines
    (sample : List Char) (sniff : Bool) (fb : Option Char)
    (hlines : (linesOf sample).length < 2)
    (sampleLines : List (List Char)) (delims : List Char)
    (hempty : sampleLines.filter (fun l => !l.isEmpty) = []) :
    detectDelimiterStructural sample sniff fb = none ∧
    validationDetectDelimiter sampleLines delims =
      .error ("Delimiter detection failed: " ++ "CSV file appears to be empty") := by
  constructor
  · by_cases hs : sample.isEmpty
    · simp [detectDelimiterStructural, hs]
    · simp [detectDelimiterStructural, hs, hlines]
  · unfold validationDetectDelimiter
    rw [hempty]
    simp

/-- Witness for C6: a one-line sample fails structural detection, and a
sample of blank lines yields the emptiness error. -/
theorem detection_fails_without_two_lines_witness :
    detectDelimiterStructural ("a,b,c").data true none = none ∧
    validationDetectDelimiter [[], []] [','] =
      .error ("Delimiter detection failed: " ++ "CSV file appears to be empty") :=
  detection_fails_without_two_lines ("a,b,c").data true none (by decide)
    [[], []] [','] (by decide)

/-- C7: on the concrete file `"id,name,age\n1,Alice,25\n2,Bob,30\n"`,
structural detection returns `","` (whatever the Sniffer or pandas
oracles do), and ingesting that content with that delimiter yields a
table of 2 rows and 3 columns. -/
theorem concrete_scenario_detect_and_ingest (sniff : Bool) (fb : Option Char) :
    detectDelimiterStructural sampleScenario sniff fb = some ',' ∧
    ∃ df, loadData true "data.csv" 32 (50 * 1024 * 1024) sampleScenario ',' []
        (fun _ => 0) true 1 = .ok df ∧
      df.rows.length = 2 ∧ df.header.length = 3 := by
  have hbest : detectBest (candidateChars sampleScenario) (linesOf sampleScenario) =
      (some ',', (12 : ℚ) / 5) := by
    with_unfolding_all decide
  have hgt : (2 : ℚ) < (12 : ℚ) / 5 := by norm_num
  refine ⟨?_, parseCsv sampleScenario ',', ?_, ?_, ?_⟩
  · simp only [detectDelimiterStructural]
    rw [if_neg (by decide : ¬sampleScenario.isEmpty = true),
      if_neg (by decide : ¬(linesOf sampleScenario).length < 2), hbest]
    cases sniff
    · simp [hgt]
    · simp
  · with_unfolding_all decide
  · decide
  · decide

/-- C8 counterexample: the interactive manual-entry path converts the
escape sequence `"\n"` to a newline and `_is_valid_delimiter` accepts
it, so the system accepts a delimiter containing a newline. -/
theorem delimiter_invariant_counterexample :
    processEscapes ("\\n").data = ("\n").data ∧
    isValidDelimiter "\n" = true ∧
    ("\n" : String).data.any isDangerousChar = true := by
  refine ⟨by decide, by decide, by decide⟩

/-- C8 amended: every delimiter accepted by
`ParameterValidator.validate_delimiter` is returned unchanged and is
non-empty, at most 5 characters, and free of newline, carriage-return
and NUL; the interactive `_is_valid_delimiter` accepts exactly the
non-empty strings of at most 3 characters, with no control-character
restriction. -/
theorem delimiter_validation_spec :
    (∀ d e : String, validateDelimiter d = .ok e →
      e = d ∧ d ≠ "" ∧ d.length ≤ 5 ∧ d.data.all (fun c => !isDangerousChar c) = true) ∧
    (∀ d : String, isValidDelimiter d = true ↔ (d ≠ "" ∧ d.length ≤ 3)) := by
  constructor
  · intro d e h
    unfold validateDelimiter at h
    split_ifs at h with h1 h2 h3
    · simp only [Except.ok.injEq] at h
      subst h
      refine ⟨rfl, h1, by omega, ?_⟩
      simp only [List.any_eq_true, not_exists, not_and] at h3
      simp only [List.all_eq_true, Bool.not_eq_true']
      intro c hc
      by_contra hcd
      exact h3 c hc (by simpa using hcd)
  · intro d
    constructor
    · intro h
      unfold isValidDelimiter at h
      split_ifs at h with h1 h2
      exact ⟨h1, by omega⟩
    · intro hd
      obtain ⟨hne, hlen⟩ := hd
      have h3 : ¬3 < d.length := by omega
      simp [isValidDelimiter, hne, h3]

/-- Witness for C8 (amended): `","` passes `validate_delimiter` with the
stated properties. -/
theorem delimiter_validation_spec_witness :
    ("," : String) = "," ∧ ("," : String) ≠ "" ∧ ("," : String).length ≤ 5 ∧
    ("," : String).data.all (fun c => !isDangerousChar c) = true :=
  delimiter_validation_spec.1 "," "," (by decide)

/-- The running best score never decreases along the candidate scan. -/
theorem scanCandidates_snd_ge (lines : List (List Char)) :
    ∀ (cs : List Char) (b : Option Char × ℚ), b.2 ≤ (scanCandidates lines cs b).2 := by
  intro cs
  induction cs with
  | nil => intro b; simp [scanCandidates]
  | cons d rest ih =>
    intro b
    obtain ⟨bd, bs⟩ := b
    cases hcs : candScore d lines with
    | none => simpa [scanCandidates, hcs] using ih (bd, bs)
    | some s =>
      by_cases hlt : bs < s
      · have : scanCandidates lines (d :: rest) (bd, bs) =
            scanCandidates lines rest (some d, s) := by
          simp [scanCandidates, hcs, hlt]
        rw [this]
        exact le_trans (le_of_lt hlt) (ih (some d, s))
      · have : scanCandidates lines (d :: rest) (bd, bs) =
            scanCandidates lines rest (bd, bs) := by
          simp [scanCandidates, hcs, hlt]
        rw [this]
        exact ih (bd, bs)

/-- Every scored candidate's score is bounded by the final best score. -/
theorem scanCandidates_mem_le (lines : List (List Char)) :
    ∀ (cs : List Char) (b : Option Char × ℚ) (c : Char), c ∈ cs →
    ∀ sc : ℚ, candScore c lines = some sc → sc ≤ (scanCandidates lines cs b).2 := by
  intro cs
  induction cs with
  | nil => intro b c hc; simp at hc
  | cons d rest ih =>
    intro b c hc sc hsc
    obtain ⟨bd, bs⟩ := b
    rcases List.mem_cons.1 hc with heq | hmem
    · subst heq
      by_cases hlt : bs < sc
      · have : scanCandidates lines (c :: rest) (bd, bs) =
            scanCandidates lines rest (some c, sc) := by
          simp [scanCandidates, hsc, hlt]
        rw [this]
        exact scanCandidates_snd_ge lines rest (some c, sc)
      · have h1 : scanCandidates lines (c :: rest) (bd, bs) =
            scanCandidates lines rest (bd, bs) := by
          simp [scanCandidates, hsc, hlt]
        rw [h1]
        exact le_trans (not_lt.1 hlt) (scanCandidates_snd_ge lines rest (bd, bs))
    · cases hcs : candScore d lines with
      | none =>
        have h1 : scanCandidates lines (d :: rest) (bd, bs) =
            scanCandidates lines rest (bd, bs) := by
          simp [scanCandidates, hcs]
        rw [h1]
        exact ih (bd, bs) c hmem sc hsc
      | some s =>
        by_cases hlt : bs < s
        · have h1 : scanCandidates lines (d :: rest) (bd, bs) =
              scanCandidates lines rest (some d, s) := by
            simp [scanCandidates, hcs, hlt]
          rw [h1]
          exact ih (some d, s) c hmem sc hsc
        · have h1 : scanCandidates lines (d :: rest) (bd, bs) =
              scanCandidates lines rest (bd, bs) := by
            simp [scanCandidates, hcs, hlt]
          rw [h1]
          exact ih (bd, bs) c hmem sc hsc

/-- When the scan ends on a best delimiter, it is either the initial one
or a scanned candidate carrying exactly its own score. -/
theorem scanCandidates_eq_some (lines : List (List Char)) :
    ∀ (cs : List Char) (b : Option Char × ℚ) (d : Char) (s : ℚ),
    scanCandidates lines cs b = (some d, s) →
    b = (some d, s) ∨ (d ∈ cs ∧ candScore d lines = some s) := by
  intro cs
  induction cs with
  | nil =>
    intro b d s h
    left
    simpa [scanCandidates] using h
  | cons a rest ih =>
    intro b d s h
    obtain ⟨bd, bs⟩ := b
    cases hcs : candScore a lines with
    | none =>
      have h1 : scanCandidates lines rest (bd, bs) = (some d, s) := by
        simpa [scanCandidates, hcs] using h
      rcases ih (bd, bs) d s h1 with heq | ⟨hmem, hsc⟩
      · exact Or.inl heq
      · exact Or.inr ⟨List.mem_cons_of_mem a hmem, hsc⟩
    | some s₀ =>
      by_cases hlt : bs < s₀
      · have h1 : scanCandidates lines rest (some a, s₀) = (some d, s) := by
          simpa [scanCandidates, hcs, hlt] using h
        rcases ih (some a, s₀) d s h1 with heq | ⟨hmem, hsc⟩
        · simp only [Prod.mk.injEq, Option.some.injEq] at heq
          obtain ⟨rfl, rfl⟩ := heq
          exact Or.inr ⟨List.mem_cons_self a rest, hcs⟩
        · exact Or.inr ⟨List.mem_cons_of_mem a hmem, hsc⟩
      · have h1 : scanCandidates lines rest (bd, bs) = (some d, s) := by
          simpa [scanCandidates, hcs, hlt] using h
        rcases ih (bd, bs) d s h1 with heq | ⟨hmem, hsc⟩
        · exact Or.inl heq
        · exact Or.inr ⟨List.mem_cons_of_mem a hmem, hsc⟩

/-- Unfolding of an accepted candidate's score: the consistency and
frequency guards hold and the score is the stated product. -/
theorem candScore_eq_some (d : Char) (lines : List (List Char)) (s : ℚ)
    (h : candScore d lines = some s) :
    2 ≤ (columnCounts d lines).length ∧
    (0.8 : ℚ) ≤ consistencyRatio d lines ∧
    1 ≤ mostCommon (columnCounts d lines) ∧
    s = consistencyRatio d lines * ((mostCommon (columnCounts d lines) : ℚ)) *
      coverageOf d lines * (if d ∈ canonicalDelims then (1.2 : ℚ) else 1) := by
  simp only [candScore] at h
  by_cases hlen : (columnCounts d lines).length < 2
  · rw [if_pos hlen] at h
    exact absurd h (by simp)
  · rw [if_neg hlen] at h
    by_cases hguard : (0.8 : ℚ) ≤ consistencyRatio d lines ∧
        1 ≤ mostCommon (columnCounts d lines)
    · rw [if_pos hguard] at h
      simp only [Option.some.injEq] at h
      exact ⟨by omega, hguard.1, hguard.2, h.symm⟩
    · rw [if_neg hguard] at h
      exact absurd h (by simp)

/-- C4: when the structural candidate scan returns a best delimiter, that
delimiter was an enumerated candidate accepted under the consistency
(≥ 0.8) and frequency (≥ 1) guards (with at least two scored lines), its
score is consistency × frequency × coverage with the 1.2 canonical
bonus, and no scored candidate beats it. -/
theorem structural_candidate_scoring
    (cands : List Char) (lines : List (List Char)) (d : Char) (s : ℚ)
    (h : detectBest cands lines = (some d, s)) :
    d ∈ cands ∧
    2 ≤ (columnCounts d lines).length ∧
    (0.8 : ℚ) ≤ consistencyRatio d lines ∧
    1 ≤ mostCommon (columnCounts d lines) ∧
    s = consistencyRatio d lines * ((mostCommon (columnCounts d lines) : ℚ)) *
      coverageOf d lines * (if d ∈ canonicalDelims then (1.2 : ℚ) else 1) ∧
    (∀ c ∈ cands, ∀ sc : ℚ, candScore c lines = some sc → sc ≤ s) := by
  have h3 := scanCandidates_eq_some lines cands (none, 0) d s h
  rcases h3 with heq | ⟨hmem, hsc⟩
  · exact absurd heq (by simp)
  · have hmax : ∀ c ∈ cands, ∀ sc : ℚ, candScore c lines = some sc → sc ≤ s := by
      intro c hc sc hscc
      have hle := scanCandidates_mem_le lines cands (none, 0) c hc sc hscc
      rw [show scanCandidates lines cands (none, (0 : ℚ)) = (some d, s) from h] at hle
      exact hle
    obtain ⟨ha, hb, hc, hd⟩ := candScore_eq_some d lines s hsc
    exact ⟨hmem, ha, hb, hc, hd, hmax⟩

/-- Witness for C4: the comma candidate of the concrete scenario sample,
with score 12/5. -/
theorem structural_candidate_scoring_witness :
    ',' ∈ candidateChars sampleScenario ∧
    2 ≤ (columnCounts ',' (linesOf sampleScenario)).length ∧
    (0.8 : ℚ) ≤ consistencyRatio ',' (linesOf sampleScenario) ∧
    1 ≤ mostCommon (columnCounts ',' (linesOf sampleScenario)) ∧
    (12 : ℚ) / 5 = consistencyRatio ',' (linesOf sampleScenario) *
      ((mostCommon (columnCounts ',' (linesOf sampleScenario)) : ℚ)) *
      coverageOf ',' (linesOf sampleScenario) *
      (if ',' ∈ canonicalDelims then (1.2 : ℚ) else 1) ∧
    (∀ c ∈ candidateChars sampleScenario, ∀ sc : ℚ,
      candScore c (linesOf sampleScenario) = some sc → sc ≤ (12 : ℚ) / 5) :=
  structural_candidate_scoring (candidateChars sampleScenario)
    (linesOf sampleScenario) ',' ((12 : ℚ) / 5) (by with_unfolding_all decide)

/-! ## Lemmas about the engine loop -/

/-- Shape of a run in which every reached engine's child process runs to
completion (`outcome (s+j) = exited (codes j)`): one result and one
dispatched invocation per engine, in order, with the result determined
by the exit code and the invocation carrying the effective input path. -/
theorem runEnginesFrom_exited_spec
    (envName : String → String) (projectRoot : String)
    (fs : Nat → String → Bool) (outcome : Nat → EngineOutcome)
    (csvPath delim outputDir : String) :
    ∀ (l : List Engine) (s : Nat) (codes : Nat → Int),
    (∀ j, j < l.length → outcome (s + j) = .exited (codes j)) →
    (runEnginesFrom envName projectRoot fs outcome csvPath delim outputDir s l).1.length
        = l.length ∧
    (runEnginesFrom envName projectRoot fs outcome csvPath delim outputDir s l).2.length
        = l.length ∧
    (∀ j, ∀ hj : j < l.length,
      (runEnginesFrom envName projectRoot fs outcome csvPath delim outputDir s l).1.getD j default
        = (if codes j = 0 then okResult (l.get ⟨j, hj⟩)
           else exitFailResult (l.get ⟨j, hj⟩) (codes j)) ∧
      (runEnginesFrom envName projectRoot fs outcome csvPath delim outputDir s l).2.getD j default
        = mkInvocation envName projectRoot (l.get ⟨j, hj⟩)
            (effectiveInput (fs (s + j) (modifiedCsvPath outputDir)) (l.get ⟨j, hj⟩)
              csvPath outputDir) delim outputDir) := by
  intro l
  induction l with
  | nil =>
    intro s codes h
    refine ⟨rfl, rfl, ?_⟩
    intro j hj
    simp at hj
  | cons e rest ih =>
    intro s codes h
    have h0 : outcome s = .exited (codes 0) := by simpa using h 0 (by simp)
    have hrec := ih (s + 1) (fun j => codes (j + 1)) (by
      intro j hj
      have harith : s + 1 + j = s + (j + 1) := by omega
      rw [harith]
      exact h (j + 1) (by simpa using Nat.succ_lt_succ hj))
    have hstep : runEnginesFrom envName projectRoot fs outcome csvPath delim outputDir
        s (e :: rest) =
        ((if codes 0 = 0 then okResult e else exitFailResult e (codes 0)) ::
          (runEnginesFrom envName projectRoot fs outcome csvPath delim outputDir
            (s + 1) rest).1,
         mkInvocation envName projectRoot e
            (effectiveInput (fs s (modifiedCsvPath outputDir)) e csvPath outputDir)
            delim outputDir ::
          (runEnginesFrom envName projectRoot fs outcome csvPath delim outputDir
            (s + 1) rest).2) := by
      simp [runEnginesFrom, h0]
    rw [hstep]
    refine ⟨by simp [hrec.1], by simp [hrec.2.1], ?_⟩
    intro j hj
    match j with
    | 0 =>
      constructor
      · simp
      · simp
    | j' + 1 =>
      have hj' : j' < rest.length := by simpa using Nat.lt_of_succ_lt_succ hj
      have hidx := hrec.2.2 j' hj'
      have harith : s + 1 + j' = s + (j' + 1) := by omega
      rw [harith] at hidx
      constructor
      · simpa using hidx.1
      · simpa using hidx.2

/-- C1: for a run over N engines in which exactly one engine k exits
nonzero (and no interrupt occurs), there are exactly N results in
dispatch order, result k is a failure recording the exit code, every
other result is a success, and all N engines (also those after k) are
dispatched. -/
theorem engine_partial_failure_isolation
    (envName : String → String) (projectRoot : String)
    (fs : Nat → String → Bool) (outcome : Nat → EngineOutcome)
    (csvPath delim outputDir : String)
    (engines : List Engine) (k : Nat) (c : Int)
    (hk : k < engines.length) (hc : c ≠ 0)
    (hko : outcome k = .exited c)
    (hothers : ∀ i, i < engines.length → i ≠ k → outcome i = .exited 0) :
    (runEngines envName projectRoot fs outcome csvPath delim outputDir engines).1.length
        = engines.length ∧
    ((runEngines envName projectRoot fs outcome csvPath delim outputDir engines).1.getD
        k default).success = false ∧
    ((runEngines envName projectRoot fs outcome csvPath delim outputDir engines).1.getD
        k default).error = some ("Failed with exit code " ++ toString c) ∧
    (∀ i, i < engines.length → i ≠ k →
      ((runEngines envName projectRoot fs outcome csvPath delim outputDir engines).1.getD
        i default).success = true) ∧
    (runEngines envName projectRoot fs outcome csvPath delim outputDir engines).2.length
        = engines.length ∧
    (∀ i, ∀ hi : i < engines.length,
      ((runEngines envName projectRoot fs outcome csvPath delim outputDir engines).2.getD
        i default).engine = (engines.get ⟨i, hi⟩).name) := by
  have hcodes : ∀ j, j < engines.length →
      outcome (0 + j) = .exited (if j = k then c else 0) := by
    intro j hj
    rw [Nat.zero_add]
    by_cases hek : j = k
    · subst hek
      simpa using hko
    · simp only [hek, if_false]
      exact hothers j hj hek
  have hspec := runEnginesFrom_exited_spec envName projectRoot fs outcome csvPath
    delim outputDir engines 0 (fun j => if j = k then c else 0) hcodes
  obtain ⟨hlen1, hlen2, hidx⟩ := hspec
  refine ⟨hlen1, ?_, ?_, ?_, hlen2, ?_⟩
  · have := (hidx k hk).1
    simp only [runEngines]
    rw [this]
    simp [hc, exitFailResult]
  · have := (hidx k hk).1
    simp only [runEngines]
    rw [this]
    simp [hc, exitFailResult]
  · intro i hi hik
    have := (hidx i hi).1
    simp only [runEngines]
    rw [this]
    simp [hik, okResult]
  · intro i hi
    have := (hidx i hi).2
    simp only [runEngines]
    rw [this]
    simp [mkInvocation]

/-- Witness for C1: two engines, engine 1 exiting with code 2. -/
theorem engine_partial_failure_isolation_witness :
    (runEngines envFix "root" fsNone outcomeOneFail "data.csv" "," "out"
      [engYdata, engSweetviz]).1.length = 2 ∧
    ((runEngines envFix "root" fsNone outcomeOneFail "data.csv" "," "out"
      [engYdata, engSweetviz]).1.getD 1 default).success = false ∧
    ((runEngines envFix "root" fsNone outcomeOneFail "data.csv" "," "out"
      [engYdata, engSweetviz]).1.getD 1 default).error =
        some ("Failed with exit code " ++ toString (2 : Int)) ∧
    (∀ i, i < 2 → i ≠ 1 →
      ((runEngines envFix "root" fsNone outcomeOneFail "data.csv" "," "out"
        [engYdata, engSweetviz]).1.getD i default).success = true) ∧
    (runEngines envFix "root" fsNone outcomeOneFail "data.csv" "," "out"
      [engYdata, engSweetviz]).2.length = 2 ∧
    (∀ i, ∀ hi : i < 2,
      ((runEngines envFix "root" fsNone outcomeOneFail "data.csv" "," "out"
        [engYdata, engSweetviz]).2.getD i default).engine =
        (([engYdata, engSweetviz] : List Engine).get ⟨i, hi⟩).name) := by
  have h := engine_partial_failure_isolation envFix "root" fsNone outcomeOneFail
    "data.csv" "," "out" [engYdata, engSweetviz] 1 2 (by decide) (by decide)
    (by decide)
    (by
      intro i hi hne
      have hi2 : i < 2 := by simpa using hi
      interval_cases i
      · decide
      · exact absurd rfl hne)
  simpa using h

/-- Every invocation dispatched by the engine loop belongs to some engine
position and carries that position's effective input path. -/
theorem runEnginesFrom_inv_mem
    (envName : String → String) (projectRoot : String)
    (fs : Nat → String → Bool) (outcome : Nat → EngineOutcome)
    (csvPath delim outputDir : String) :
    ∀ (l : List Engine) (s : Nat) (v : Invocation),
    v ∈ (runEnginesFrom envName projectRoot fs outcome csvPath delim outputDir s l).2 →
    ∃ j, ∃ hj : j < l.length,
      v = mkInvocation envName projectRoot (l.get ⟨j, hj⟩)
        (effectiveInput (fs (s + j) (modifiedCsvPath outputDir)) (l.get ⟨j, hj⟩)
          csvPath outputDir) delim outputDir := by
  intro l
  induction l with
  | nil =>
    intro s v hv
    simp [runEnginesFrom] at hv
  | cons e rest ih =>
    intro s v hv
    cases ho : outcome s with
    | exited c =>
      have hv' : v = mkInvocation envName projectRoot e
          (effectiveInput (fs s (modifiedCsvPath outputDir)) e csvPath outputDir)
          delim outputDir ∨
          v ∈ (runEnginesFrom envName projectRoot fs outcome csvPath delim outputDir
            (s + 1) rest).2 := by
        simpa [runEnginesFrom, ho] using hv
      rcases hv' with heq | hmem
      · exact ⟨0, by simp, by simpa using heq⟩
      · obtain ⟨j, hj, hveq⟩ := ih (s + 1) v hmem
        have harith : s + 1 + j = s + (j + 1) := by omega
        rw [harith] at hveq
        exact ⟨j + 1, by simpa using Nat.succ_lt_succ hj, by simpa using hveq⟩
    | raised msg =>
      have hv' : v ∈ (runEnginesFrom envName projectRoot fs outcome csvPath delim
          outputDir (s + 1) rest).2 := by
        simpa [runEnginesFrom, ho] using hv
      obtain ⟨j, hj, hveq⟩ := ih (s + 1) v hv'
      have harith : s + 1 + j = s + (j + 1) := by omega
      rw [harith] at hveq
      exact ⟨j + 1, by simpa using Nat.succ_lt_succ hj, by simpa using hveq⟩
    | interruptedWait =>
      have hv' : v = mkInvocation envName projectRoot e
          (effectiveInput (fs s (modifiedCsvPath outputDir)) e csvPath outputDir)
          delim outputDir := by
        simpa [runEnginesFrom, ho] using hv
      exact ⟨0, by simp, by simpa using hv'⟩

/-- C2: every invocation dispatched by a run belongs to an engine
position j; its input path is the handoff artifact
`output_dir/modified_dataset.csv` exactly when the artifact exists at
step j and the engine is not the interactive main engine, and the
original source path otherwise; the interactive engine always receives
the original source path. -/
theorem handoff_input_substitution
    (envName : String → String) (projectRoot : String)
    (fs : Nat → String → Bool) (outcome : Nat → EngineOutcome)
    (csvPath delim outputDir : String)
    (engines : List Engine) (v : Invocation)
    (hv : v ∈ (runEngines envName projectRoot fs outcome csvPath delim outputDir
      engines).2) :
    ∃ j, ∃ hj : j < engines.length,
      v.engine = (engines.get ⟨j, hj⟩).name ∧
      v.inputPath =
        (if fs j (modifiedCsvPath outputDir) ∧
            ¬isInteractiveEngine (engines.get ⟨j, hj⟩)
         then modifiedCsvPath outputDir else csvPath) ∧
      (isInteractiveEngine (engines.get ⟨j, hj⟩) = true → v.inputPath = csvPath) := by
  obtain ⟨j, hj, hveq⟩ := runEnginesFrom_inv_mem envName projectRoot fs outcome
    csvPath delim outputDir engines 0 v (by simpa [runEngines] using hv)
  rw [Nat.zero_add] at hveq
  refine ⟨j, hj, ?_, ?_, ?_⟩
  · rw [hveq]
    rfl
  · rw [hveq]
    simp only [mkInvocation, effectiveInput]
  · intro hint
    rw [hveq]
    simp only [mkInvocation, effectiveInput]
    exact if_neg (fun hcond => hcond.2 hint)

/-- Witness for C2: a two-engine run (interactive main engine first) in
which the handoff artifact exists at every step; the dispatched
invocation of the main engine keeps the original source path. -/
theorem handoff_input_substitution_witness :
    ∃ j, ∃ hj : j < ([engMain, engYdata] : List Engine).length,
      (Invocation.mk "engines/main/analyzer.py" "data.csv"
        (buildCmd "csv-profiler-main" ("root" ++ "/autocsv_profiler/" ++ "engines/main/analyzer.py")
          ["data.csv", ",", "out"])).engine =
        (([engMain, engYdata] : List Engine).get ⟨j, hj⟩).name ∧
      (Invocation.mk "engines/main/analyzer.py" "data.csv"
        (buildCmd "csv-profiler-main" ("root" ++ "/autocsv_profiler/" ++ "engines/main/analyzer.py")
          ["data.csv", ",", "out"])).inputPath =
        (if fsAll j (modifiedCsvPath "out") ∧
            ¬isInteractiveEngine (([engMain, engYdata] : List Engine).get ⟨j, hj⟩)
         then modifiedCsvPath "out" else "data.csv") ∧
      (isInteractiveEngine (([engMain, engYdata] : List Engine).get ⟨j, hj⟩) = true →
        (Invocation.mk "engines/main/analyzer.py" "data.csv"
          (buildCmd "csv-profiler-main" ("root" ++ "/autocsv_profiler/" ++ "engines/main/analyzer.py")
            ["data.csv", ",", "out"])).inputPath = "data.csv") :=
  handoff_input_substitution envFix "root" fsAll outcomeAllOk "data.csv" "," "out"
    [engMain, engYdata]
    (Invocation.mk "engines/main/analyzer.py" "data.csv"
      (buildCmd "csv-profiler-main" ("root" ++ "/autocsv_profiler/" ++ "engines/main/analyzer.py")
        ["data.csv", ",", "out"]))
    (by decide)

/-- C5: when a `KeyboardInterrupt` arrives while waiting on the engine at
position `l₁.length` (and no earlier step was interrupted), the run over
`l₁ ++ e :: l₂` equals the run over `l₁` extended with the single
interrupt failure entry for `e` — the results collected for the engines
before the interrupt are preserved unchanged, and no engine of `l₂` is
dispatched (the outcome does not depend on `l₂` at all). -/
theorem interrupt_halts_remaining_dispatch
    (envName : String → String) (projectRoot : String)
    (fs : Nat → String → Bool) (outcome : Nat → EngineOutcome)
    (csvPath delim outputDir : String) :
    ∀ (l₁ : List Engine) (s : Nat) (e : Engine) (l₂ : List Engine),
    (∀ j, j < l₁.length → outcome (s + j) ≠ .interruptedWait) →
    outcome (s + l₁.length) = .interruptedWait →
    runEnginesFrom envName projectRoot fs outcome csvPath delim outputDir s
        (l₁ ++ e :: l₂) =
      ((runEnginesFrom envName projectRoot fs outcome csvPath delim outputDir s l₁).1
          ++ [interruptResult e],
       (runEnginesFrom envName projectRoot fs outcome csvPath delim outputDir s l₁).2
          ++ [mkInvocation envName projectRoot e
            (effectiveInput (fs (s + l₁.length) (modifiedCsvPath outputDir)) e
              csvPath outputDir) delim outputDir]) := by
  intro l₁
  induction l₁ with
  | nil =>
    intro s e l₂ hpre hint
    simp only [List.length_nil, Nat.add_zero] at hint
    simp [runEnginesFrom, hint]
  | cons a t ih =>
    intro s e l₂ hpre hint
    have ha : outcome s ≠ .interruptedWait := by
      have := hpre 0 (by simp)
      simpa using this
    have hpre' : ∀ j, j < t.length → outcome (s + 1 + j) ≠ .interruptedWait := by
      intro j hj
      have harith : s + 1 + j = s + (j + 1) := by omega
      rw [harith]
      exact hpre (j + 1) (by simpa using Nat.succ_lt_succ hj)
    have hint' : outcome (s + 1 + t.length) = .interruptedWait := by
      have harith : s + 1 + t.length = s + (t.length + 1) := by omega
      rw [harith]
      simpa using hint
    have hrec := ih (s + 1) e l₂ hpre' hint'
    cases ho : outcome s with
    | interruptedWait => exact absurd ho ha
    | exited c =>
      have harith : s + 1 + t.length = s + (t.length + 1) := by omega
      rw [harith] at hrec
      simp [runEnginesFrom, ho, hrec]
    | raised msg =>
      have harith : s + 1 + t.length = s + (t.length + 1) := by omega
      rw [harith] at hrec
      simp [runEnginesFrom, ho, hrec]

/-- Witness for C5: engines `[ydata, sweetviz, main]` with an interrupt
while waiting on engine 1; the run equals the one-engine run plus the
interrupt entry, independently of the third engine. -/
theorem interrupt_halts_remaining_dispatch_witness :
    runEnginesFrom envFix "root" fsNone outcomeInterruptAt1 "data.csv" "," "out" 0
        ([engYdata] ++ engSweetviz :: [engMain]) =
      ((runEnginesFrom envFix "root" fsNone outcomeInterruptAt1 "data.csv" "," "out"
          0 [engYdata]).1 ++ [interruptResult engSweetviz],
       (runEnginesFrom envFix "root" fsNone outcomeInterruptAt1 "data.csv" "," "out"
          0 [engYdata]).2 ++ [mkInvocation envFix "root" engSweetviz
            (effectiveInput (fsNone ((0 : Nat) + ([engYdata] : List Engine).length)
              (modifiedCsvPath "out")) engSweetviz "data.csv" "out") "," "out"]) :=
  interrupt_halts_remaining_dispatch envFix "root" fsNone outcomeInterruptAt1
    "data.csv" "," "out" [engYdata] 0 engSweetviz [engMain]
    (by
      intro j hj
      have hj1 : j < 1 := by simpa using hj
      interval_cases j
      · decide)
    (by decide)
